import Mathlib

set_option maxHeartbeats 1000000

/-!
Verification of the convênio dashboard (`src/main.py`).

The development shallowly embeds the data-handling core of the script:
the spreadsheet normalizer `tratar_planilha`, the persistence gateway
(`carregar_dados_do_banco` / `salvar_no_banco`), the due-today filter and
the sidebar view filters, and the `to_excel` export encoder.  A pandas
DataFrame is modelled as a list of column names plus a list of rows of
cells; pandas/driver behaviour that the script relies on (KeyError on a
missing column, `dropna`, `isin`, `to_datetime` with coerce,
`rename`, truthiness of filter widgets) is reproduced on that model.
-/

/-- A DataFrame cell: missing (`NaN`/`NaT`/`None`), a string, a datetime
(calendar day index plus a time-of-day component), or a non-string,
non-date scalar. -/
inductive Cell
  | null
  | str (s : String)
  | date (day : Int) (time : Nat)
  | num (n : Int)
  deriving DecidableEq

/-- A DataFrame: ordered column names and rows of cells (row `r` holds the
cell of column `cols[i]` at position `i`). -/
structure Table where
  cols : List String
  rows : List (List Cell)
  deriving DecidableEq

/-- Whether `p` is a prefix of `s`, on character lists. -/
def listStartsWith : List Char → List Char → Bool
  | [], _ => true
  | _ :: _, [] => false
  | a :: as, b :: bs => a == b && listStartsWith as bs

/-- Whether `p` occurs as a contiguous sublist of `s`. -/
def listHasSub (p : List Char) : List Char → Bool
  | [] => p.isEmpty
  | b :: bs => listStartsWith p (b :: bs) || listHasSub p bs

/-- Python substring containment `p in s` (case sensitive). -/
def containsSub (s p : String) : Bool := listHasSub p.data s.data

/-- The separator keywords of `tratar_planilha` (`palavras_chave`). -/
def palavras_chave : List String := ["FEDERAL", "ESTADUAL", "MUNICIPAL", "Governos"]

/-- `tem_palavra_chave`: the `Convênio` cell is a string containing one of
the keywords; a non-string cell is treated as not matching
(`isinstance(valor_coluna_conv, str)` guard). -/
def temPalavraChave : Cell → Bool
  | Cell.str s => palavras_chave.any (fun p => containsSub s p)
  | _ => false

/-- `row[Validação] in palavras_chave`: Python list membership by
equality, so only a string cell equal to one of the keywords matches. -/
def validacaoInKeywords : Cell → Bool
  | Cell.str s => palavras_chave.contains s
  | _ => false

/-- `pd.isna`-style null test on a cell. -/
def isNullCell : Cell → Bool
  | Cell.null => true
  | _ => false

/-- `row[name]` on a pandas row: the cell at the position of the column, or a
KeyError when no column has that name. -/
def getCell (cols : List String) (row : List Cell) (name : String) : Except String Cell :=
  match cols.findIdx? (fun c => c == name) with
  | some i => Except.ok (row.getD i Cell.null)
  | none => Except.error ("KeyError: " ++ name)

/-- The `df.iterrows()` loop of `tratar_planilha` followed by
`df.drop(indices_para_remover)`: every row is visited in order, reads its
`Convênio` cell and then its `Validação` cell (raising a KeyError when the
column is absent), and the row is dropped iff it is a separator
(`tem_palavra_chave and outras_colunas_vazias`). -/
def scanSeparators (cols : List String) : List (List Cell) → Except String (List (List Cell))
  | [] => Except.ok []
  | r :: rs =>
    match getCell cols r ("Convênio") with
    | Except.error e => Except.error e
    | Except.ok conv =>
      match getCell cols r ("Validação") with
      | Except.error e => Except.error e
      | Except.ok val =>
        match scanSeparators cols rs with
        | Except.error e => Except.error e
        | Except.ok rest =>
          if temPalavraChave conv && validacaoInKeywords val then Except.ok rest
          else Except.ok (r :: rest)

/-- `df_clean.dropna` on the `Convênio` subset: keeps the rows whose `Convênio`
cell is not null; pandas raises a KeyError when the subset column is
missing, even on an empty frame. -/
def dropnaConvenio (cols : List String) (rows : List (List Cell)) :
    Except String (List (List Cell)) :=
  match cols.findIdx? (fun c => c == ("Convênio")) with
  | some i => Except.ok (rows.filter (fun r => !(isNullCell (r.getD i Cell.null))))
  | none => Except.error ("KeyError: " ++ "Convênio")

/-- Rows surviving steps 1-4 of `tratar_planilha`: the separator scan
followed by the null-`Convênio` drop. -/
def keptRows (t : Table) : Except String (List (List Cell)) :=
  match scanSeparators t.cols t.rows with
  | Except.error e => Except.error e
  | Except.ok ks => dropnaConvenio t.cols ks

/-- `next((c for c in df_clean.columns if sub in c), None)`: the first
column whose name contains `sub` as a substring. -/
def findCol (cols : List String) (sub : String) : Option String :=
  cols.find? (fun c => containsSub c sub)

/-- `df.rename(columns=dict)` where the dict keys come from Python
variables that may hold `None`: every column equal to a (non-`None`) key
is mapped to the value of that key; a `None` key matches no column; with
duplicate keys the later binding wins, as in a Python dict literal. -/
def renameCols (m : List (Option String × String)) (cols : List String) : List String :=
  cols.map (fun c => (((m.reverse).find? (fun p => p.1 == some c)).map (fun p => p.2)).getD c)

/-- Nanoseconds per day, the pandas epoch-offset unit for numeric input to
`pd.to_datetime`. -/
def nsPerDay : Int := 86400000000000

/-- Numeric value of a decimal digit character. -/
def digitVal (c : Char) : Nat := c.toNat - 48

/-- Abstraction of the pandas date parser behind
the coercing `pd.to_datetime` on string input, covering ISO
`YYYY-MM-DD` strings mapped to a calendar-day index; any other string is
unparsable. -/
def parseDateStr (s : String) : Option Int :=
  match s.data with
  | [y1, y2, y3, y4, s1, m1, m2, s2, d1, d2] =>
    if y1.isDigit && y2.isDigit && y3.isDigit && y4.isDigit
        && s1 == '-' && s2 == '-'
        && m1.isDigit && m2.isDigit && d1.isDigit && d2.isDigit then
      some (((digitVal y1 * 1000 + digitVal y2 * 100 + digitVal y3 * 10 + digitVal y4) * 372
        + (digitVal m1 * 10 + digitVal m2 - 1) * 31
        + (digitVal d1 * 10 + digitVal d2 - 1) : Nat))
    else none
  | _ => none

/-- the coercing `pd.to_datetime` on one cell: datetimes pass
through, parsable strings become datetimes, numbers are read as epoch
offsets in nanoseconds, and everything unparsable (including missing)
becomes the missing marker `NaT`. -/
def toDatetimeCoerce : Cell → Cell
  | Cell.null => Cell.null
  | Cell.date d t => Cell.date d t
  | Cell.str s =>
    match parseDateStr s with
    | some d => Cell.date d 0
    | none => Cell.null
  | Cell.num n => Cell.date (Int.fdiv n nsPerDay) ((Int.emod n nsPerDay).toNat)

/-- Whether a cell would be successfully parsed as a date by
the coercing `pd.to_datetime` (as opposed to coerced to `NaT`). -/
def cellParses : Cell → Bool
  | Cell.null => false
  | Cell.date _ _ => true
  | Cell.str s => (parseDateStr s).isSome
  | Cell.num _ => true

/-- `df[name] = pd.to_datetime(df[name])` with coerce, guarded by
`if name in df.columns`: coerce every cell of the (first) column named
`name`; no such column means no change. -/
def parseColumn (cols : List String) (name : String) (rows : List (List Cell)) :
    List (List Cell) :=
  match cols.findIdx? (fun c => c == name) with
  | some i => rows.map (fun r => r.set i (toDatetimeCoerce (r.getD i Cell.null)))
  | none => rows

/-- The date-coercion loop of `tratar_planilha`
(`cols_data` listing `Data de Corte` then `Data de Lançamento`). -/
def parseRows (cols : List String) (rows : List (List Cell)) : List (List Cell) :=
  parseColumn cols ("Data de Lançamento") (parseColumn cols ("Data de Corte") rows)

/-- The date-coercion loop of `carregar_dados_do_banco`
(`cols_data` listing `Data de Lançamento` then `Data de Corte`). -/
def parseRowsLoad (cols : List String) (rows : List (List Cell)) : List (List Cell) :=
  parseColumn cols ("Data de Corte") (parseColumn cols ("Data de Lançamento") rows)

/-- Date coercion applied to a whole table, as at the end of
`tratar_planilha`. -/
def parseDates (t : Table) : Table :=
  { cols := t.cols, rows := parseRows t.cols t.rows }

/-- `tratar_planilha`: separator scan, null-`Convênio` drop, date-column
reconciliation, date coercion.  `Except.error` models a raised exception,
`Except.ok none` models the `return False` sentinel of the missing
date-columns branch, and `Except.ok (some t)` is the cleaned table.
The second (`elif`) branch renames with the dict built from
`col_origem_corte` and `col_origem_lanc` — the first-family search
results, not the canonical-family ones — exactly as in the source; a
column found by the substring search is never the empty string, so Python
truthiness of the pair coincides with both searches succeeding. -/
def tratar_planilha (t : Table) : Except String (Option Table) :=
  match keptRows t with
  | Except.error e => Except.error e
  | Except.ok rows2 =>
    match findCol t.cols ("Data corte"), findCol t.cols ("Data lançamento") with
    | some a, some b =>
      Except.ok (some (parseDates
        { cols := renameCols [(some a, "Data de Corte"), (some b, "Data de Lançamento")] t.cols,
          rows := rows2 }))
    | _, _ =>
      if (findCol t.cols ("Data de Corte")).isSome
          && (findCol t.cols ("Data de Lançamento")).isSome then
        Except.ok (some (parseDates
          { cols := renameCols [(findCol t.cols ("Data corte"), "Data de Corte"),
                                (findCol t.cols ("Data lançamento"), "Data de Lançamento")] t.cols,
            rows := rows2 }))
      else
        Except.ok none

/-- Whether a cell is a parsed datetime or the missing marker — the only
cell shapes the coercing `pd.to_datetime` can produce. -/
def isDateOrNull : Cell → Bool
  | Cell.null => true
  | Cell.date _ _ => true
  | _ => false

/-- `salvar_no_banco` as invoked by the upload handler: a real DataFrame
is written in replace mode and the function returns `True`; the
`False` sentinel coming from `tratar_planilha` has no `to_sql` method, so
inside the `try` the call raises, is caught, writes nothing and returns
`False`.  The store is `none` while the backing table does not exist. -/
def salvar_no_banco (store : Option Table) (x : Option Table) : Option Table × Bool :=
  match x with
  | some df => (some df, true)
  | none => (store, false)

/-- The `Processar e Salvar` button handler: normalize the upload, then
call `salvar_no_banco` on whatever `tratar_planilha` returned; a raised
exception propagates to the surrounding `try`. -/
def processarESalvar (store : Option Table) (upload : Table) :
    Except String (Option Table × Bool) :=
  match tratar_planilha upload with
  | Except.error e => Except.error e
  | Except.ok r => Except.ok (salvar_no_banco store r)

/-- Outcome of the `SELECT * FROM tabela_corte` read inside
`carregar_dados_do_banco`: success, the MySQL 1146 table-missing
error, or any other exception (bad credentials, unreachable host, ...). -/
inductive ReadOutcome
  | ok (t : Table)
  | tableMissing
  | otherError (msg : String)

/-- `carregar_dados_do_banco`: read the whole backing table and coerce the
two date columns (`Data de Lançamento` then `Data de Corte`);
an error whose text contains `1146` is the first-run state and yields an
empty frame silently, and any other exception yields an empty frame
after surfacing `Erro ao carregar dados: ...` through the UI error
display (the second component). -/
def carregar_dados_do_banco : ReadOutcome → Table × Option String
  | ReadOutcome.ok t => ({ cols := t.cols, rows := parseRowsLoad t.cols t.rows }, none)
  | ReadOutcome.tableMissing => ({ cols := [], rows := [] }, none)
  | ReadOutcome.otherError msg =>
    ({ cols := [], rows := [] }, some ("Erro ao carregar dados: " ++ msg))

/-- The persistence-gateway save modes of the spec. -/
inductive SaveMode
  | replace
  | append

/-- Modelled from the spec: `save(table, mode)` of the persistence
gateway.  `src/main.py` pins `salvar_no_banco` to replace mode
(drop and rewrite the whole contents of the backing table, as modelled in the
`replace` arm); the `append` mode — add the rows after the existing ones,
no deduplication — belongs to the other near-duplicate
variant, which is not under `src/`, and follows the words of the spec here.
The store is `none` before the backing table first exists. -/
def save (store : Option Table) (df : Table) : SaveMode → Option Table
  | SaveMode.replace => some df
  | SaveMode.append =>
    match store with
    | none => some df
    | some old => some { cols := old.cols, rows := old.rows ++ df.rows }

/-- `load()`: read the whole backing table through
`carregar_dados_do_banco`; a missing backing table is the first-run
state. -/
def load (store : Option Table) : Table :=
  (carregar_dados_do_banco (match store with
    | none => ReadOutcome.tableMissing
    | some t => ReadOutcome.ok t)).1

/-- Every cell of the column called `name` (if present) is a datetime or
missing. -/
def colCanonical (cols : List String) (rows : List (List Cell)) (name : String) : Bool :=
  match cols.findIdx? (fun c => c == name) with
  | none => true
  | some i => rows.all (fun r => isDateOrNull (r.getD i Cell.null))

/-- A canonical (normalized, persisted) table: both canonical date columns
hold only datetimes or missing markers, which is what normalization
produces and the store gives back. -/
def CanonicalTable (t : Table) : Bool :=
  colCanonical t.cols t.rows ("Data de Lançamento")
    && colCanonical t.cols t.rows ("Data de Corte")

/-- `cell.dt.date == d` on one cell: the calendar-day component of a datetime
compared with an exact date; the time of day is ignored and
`NaT`/missing never compares equal. -/
def dtDateEq : Cell → Int → Bool
  | Cell.date d _, e => d == e
  | _, _ => false

/-- The due-today alert table
(`filtro_hoje`, the launch-date-equals-today mask, followed by indexing with it): keeps the rows launched today; pandas raises a
KeyError when the column is absent.  Only the launch-date column is
consulted — `Data de Corte` plays no part. -/
def filtro_hoje (hoje : Int) (t : Table) : Except String Table :=
  match t.cols.findIdx? (fun c => c == ("Data de Lançamento")) with
  | some i => Except.ok
      { cols := t.cols, rows := t.rows.filter (fun r => dtDateEq (r.getD i Cell.null) hoje) }
  | none => Except.error ("KeyError: " ++ "Data de Lançamento")

/-- The sidebar filter state: the two multiselects hold lists of selected
cell values (empty when unset) and the two date inputs an optional exact
calendar date (`None` when unset). -/
structure Filters where
  convenios : List Cell
  sistemas : List Cell
  dataLanc : Option Int
  dataCorte : Option Int
  deriving DecidableEq

/-- `df[df[name].isin(vals)]` guarded by `if vals:` — an empty selection
skips both the column access and the filter. -/
def filterStepIsin (cols : List String) (name : String) (vals : List Cell)
    (rows : List (List Cell)) : Except String (List (List Cell)) :=
  if vals.isEmpty then Except.ok rows
  else
    match cols.findIdx? (fun c => c == name) with
    | some i => Except.ok (rows.filter (fun r => vals.contains (r.getD i Cell.null)))
    | none => Except.error ("KeyError: " ++ name)

/-- `df[df[name].dt.date == d]` guarded by `if d:` — an unset date input
skips both the column access and the filter. -/
def filterStepDate (cols : List String) (name : String) (dOpt : Option Int)
    (rows : List (List Cell)) : Except String (List (List Cell)) :=
  match dOpt with
  | none => Except.ok rows
  | some d =>
    match cols.findIdx? (fun c => c == name) with
    | some i => Except.ok (rows.filter (fun r => dtDateEq (r.getD i Cell.null) d))
    | none => Except.error ("KeyError: " ++ name)

/-- The filter application of the main area, in source order: agreement
multiselect, system multiselect, exact launch date, exact cutoff date,
each applied to the survivors of the previous one. -/
def applyFilters (f : Filters) (t : Table) : Except String Table :=
  match filterStepIsin t.cols ("Convênio") f.convenios t.rows with
  | Except.error e => Except.error e
  | Except.ok r1 =>
    match filterStepIsin t.cols ("Sistema") f.sistemas r1 with
    | Except.error e => Except.error e
    | Except.ok r2 =>
      match filterStepDate t.cols ("Data de Lançamento") f.dataLanc r2 with
      | Except.error e => Except.error e
      | Except.ok r3 =>
        match filterStepDate t.cols ("Data de Corte") f.dataCorte r3 with
        | Except.error e => Except.error e
        | Except.ok r4 => Except.ok { cols := t.cols, rows := r4 }

/-- One sheet of the exported workbook: its name, the header row (column
names) and the data rows. -/
structure ExcelSheet where
  name : String
  header : List String
  dataRows : List (List Cell)
  deriving DecidableEq

/-- The exported workbook document. -/
structure ExcelDoc where
  sheets : List ExcelSheet
  deriving DecidableEq

/-- Length-prefixed encoding of a string as its code-point sequence. -/
def encStr (s : String) : List Nat := s.data.length :: s.data.map Char.toNat

/-- Sign-tagged encoding of an integer. -/
def encInt : Int → List Nat
  | Int.ofNat n => [0, n]
  | Int.negSucc n => [1, n]

/-- Tagged encoding of one cell. -/
def encCell : Cell → List Nat
  | Cell.null => [0]
  | Cell.str s => 1 :: encStr s
  | Cell.date d tm => 2 :: encInt d ++ [tm]
  | Cell.num n => 3 :: encInt n

/-- Concatenated encodings of the elements of a list. -/
def encSeq {α : Type} (f : α → List Nat) : List α → List Nat
  | [] => []
  | a :: as => f a ++ encSeq f as

/-- Length-prefixed encoding of a list of elements. -/
def encListWith {α : Type} (f : α → List Nat) (l : List α) : List Nat :=
  l.length :: encSeq f l

/-- Encoding of one data row. -/
def encRow : List Cell → List Nat := encListWith encCell

/-- Encoding of one sheet: name, header row, data rows. -/
def encSheet (sh : ExcelSheet) : List Nat :=
  encStr sh.name ++ encListWith encStr sh.header ++ encListWith encRow sh.dataRows

/-- The byte stream of a workbook document (the workbook container
serialization behind `pd.ExcelWriter` with the xlsxwriter engine,
abstracted to an unambiguous byte encoding of the document content the
source determines). -/
def excelBytes (doc : ExcelDoc) : List Nat := encListWith encSheet doc.sheets

/-- `to_excel`: `df.to_excel(writer)` with index suppressed and sheet name `Tratada`
into an in-memory buffer — a single sheet named `Tratada`, the column
names as header row, the data rows with no row-index column. -/
def to_excel (df : Table) : List Nat :=
  excelBytes { sheets := [{ name := "Tratada", header := df.cols, dataRows := df.rows }] }

/-- Decoder for `encStr`. -/
def decStr : List Nat → Option (String × List Nat)
  | [] => none
  | n :: rest =>
    if n ≤ rest.length then
      some (String.mk ((rest.take n).map Char.ofNat), rest.drop n)
    else none

/-- Decoder for `encInt`. -/
def decInt : List Nat → Option (Int × List Nat)
  | 0 :: n :: rest => some (Int.ofNat n, rest)
  | 1 :: n :: rest => some (Int.negSucc n, rest)
  | _ => none

/-- Decoder for `encCell`. -/
def decCell : List Nat → Option (Cell × List Nat)
  | 0 :: rest => some (Cell.null, rest)
  | 1 :: rest => (decStr rest).map (fun p => (Cell.str p.1, p.2))
  | 2 :: rest =>
    match decInt rest with
    | some (d, tm :: rest2) => some (Cell.date d tm, rest2)
    | _ => none
  | 3 :: rest => (decInt rest).map (fun p => (Cell.num p.1, p.2))
  | _ => none

/-- Decoder for `encSeq`, given the element count. -/
def decSeqWith {α : Type} (g : List Nat → Option (α × List Nat)) :
    Nat → List Nat → Option (List α × List Nat)
  | 0, rest => some ([], rest)
  | k + 1, rest =>
    match g rest with
    | some (a, rest2) =>
      match decSeqWith g k rest2 with
      | some (as, rest3) => some (a :: as, rest3)
      | none => none
    | none => none

/-- Decoder for `encListWith`. -/
def decListWith {α : Type} (g : List Nat → Option (α × List Nat)) :
    List Nat → Option (List α × List Nat)
  | [] => none
  | n :: rest => decSeqWith g n rest

/-- Decoder for `encRow`. -/
def decRow : List Nat → Option (List Cell × List Nat) := decListWith decCell

/-- Decoder for `encSheet`. -/
def decSheet (bs : List Nat) : Option (ExcelSheet × List Nat) :=
  match decStr bs with
  | none => none
  | some (nm, bs1) =>
    match decListWith decStr bs1 with
    | none => none
    | some (hdr, bs2) =>
      match decListWith decRow bs2 with
      | none => none
      | some (rws, bs3) => some ({ name := nm, header := hdr, dataRows := rws }, bs3)

/-- Decoder for `excelBytes`. -/
def decodeExcel (bs : List Nat) : Option (ExcelDoc × List Nat) :=
  match decListWith decSheet bs with
  | none => none
  | some (shs, rest) => some ({ sheets := shs }, rest)

/-- The separator scan succeeds when the `Convênio` and `Validação`
columns exist, and keeps exactly the non-separator rows in order. -/
theorem scanSeparators_ok (cols : List String) (ic iv : Nat)
    (hc : cols.findIdx? (fun c => c == ("Convênio")) = some ic)
    (hv : cols.findIdx? (fun c => c == ("Validação")) = some iv) :
    ∀ rows : List (List Cell),
      scanSeparators cols rows = Except.ok (rows.filter (fun r =>
        !(temPalavraChave (r.getD ic Cell.null) && validacaoInKeywords (r.getD iv Cell.null)))) := by
  intro rows
  induction rows with
  | nil => rfl
  | cons r rs ih =>
    simp only [scanSeparators, getCell, hc, hv, ih]
    cases h1 : temPalavraChave (r.getD ic Cell.null) with
    | false =>
      simp only [List.filter_cons]
      rw [h1]
      simp
    | true =>
      cases h2 : validacaoInKeywords (r.getD iv Cell.null) with
      | false =>
        simp only [List.filter_cons]
        rw [h1, h2]
        simp
      | true =>
        simp only [List.filter_cons]
        rw [h1, h2]
        simp

/-- The two row-dropping stages of `tratar_planilha` keep exactly the
rows that are neither separators nor null in `Convênio`, in order. -/
theorem keptRows_filter (t : Table) (ic iv : Nat)
    (hc : t.cols.findIdx? (fun c => c == ("Convênio")) = some ic)
    (hv : t.cols.findIdx? (fun c => c == ("Validação")) = some iv) :
    keptRows t = Except.ok (t.rows.filter (fun r =>
      !(temPalavraChave (r.getD ic Cell.null) && validacaoInKeywords (r.getD iv Cell.null))
        && !(isNullCell (r.getD ic Cell.null)))) := by
  simp only [keptRows, scanSeparators_ok t.cols ic iv hc hv t.rows, dropnaConvenio, hc,
    List.filter_filter]
  congr 1
  apply List.filter_congr
  intro r _
  rw [Bool.and_comm]

/-- C1: for every uploaded table (with its required `Convênio` and
`Validação` columns), the row-cleaning stage of `tratar_planilha` removes
exactly the separator rows — `Convênio` a string containing one of
FEDERAL/ESTADUAL/MUNICIPAL/Governos (a non-string cell never matches) and
`Validação` equal to one of those keywords — and then the rows whose
`Convênio` cell is null; all other rows are kept in their original
order. -/
theorem c1_normalizer_removes_separators_then_null_convenio
    (t : Table) (ic iv : Nat)
    (hc : t.cols.findIdx? (fun c => c == ("Convênio")) = some ic)
    (hv : t.cols.findIdx? (fun c => c == ("Validação")) = some iv) :
    keptRows t = Except.ok (t.rows.filter (fun r =>
      !(temPalavraChave (r.getD ic Cell.null) && validacaoInKeywords (r.getD iv Cell.null))
        && !(isNullCell (r.getD ic Cell.null)))) :=
  keptRows_filter t ic iv hc hv

/-- Concrete run of C1: a FEDERAL separator row, a null-`Convênio` row and
a non-string (numeric) `Convênio` row; exactly the separator and the null
row disappear, the others stay in order. -/
theorem c1_witness :
    keptRows
      { cols := ["Convênio", "Validação"],
        rows := [[Cell.str ("FEDERAL"), Cell.str ("FEDERAL")],
                 [Cell.str ("Conv A"), Cell.str ("ok")],
                 [Cell.null, Cell.str ("ok")],
                 [Cell.num 7, Cell.str ("FEDERAL")],
                 [Cell.str ("Conv FEDERAL B"), Cell.str ("ok")]] }
      = Except.ok [[Cell.str ("Conv A"), Cell.str ("ok")],
                   [Cell.num 7, Cell.str ("FEDERAL")],
                   [Cell.str ("Conv FEDERAL B"), Cell.str ("ok")]] := by
  have h := c1_normalizer_removes_separators_then_null_convenio
    { cols := ["Convênio", "Validação"],
      rows := [[Cell.str ("FEDERAL"), Cell.str ("FEDERAL")],
               [Cell.str ("Conv A"), Cell.str ("ok")],
               [Cell.null, Cell.str ("ok")],
               [Cell.num 7, Cell.str ("FEDERAL")],
               [Cell.str ("Conv FEDERAL B"), Cell.str ("ok")]] }
    0 1 (by rfl) (by rfl)
  exact h.trans (by rfl)

theorem isDateOrNull_toDatetimeCoerce (c : Cell) :
    isDateOrNull (toDatetimeCoerce c) = true := by
  cases c with
  | null => rfl
  | date d t => rfl
  | num n => rfl
  | str s =>
    simp only [toDatetimeCoerce]
    cases hp : parseDateStr s with
    | none => rfl
    | some d => rfl

theorem findIdx?_le_and_pred {α : Type} (p : α → Bool) (d : α) :
    ∀ (l : List α) (s j : Nat), List.findIdx? p l s = some j →
      s ≤ j ∧ p (l.getD (j - s) d) = true := by
  intro l
  induction l with
  | nil =>
    intro s j h
    rw [List.findIdx?_nil] at h
    exact absurd h (by simp)
  | cons x xs ih =>
    intro s j h
    rw [List.findIdx?_cons] at h
    by_cases hp : p x = true
    · rw [if_pos hp] at h
      injection h with h
      subst h
      refine ⟨Nat.le_refl s, ?_⟩
      simpa [Nat.sub_self] using hp
    · rw [if_neg hp] at h
      obtain ⟨hle, hpred⟩ := ih (s + 1) j h
      refine ⟨Nat.le_trans (Nat.le_succ s) hle, ?_⟩
      have hs : j - s = (j - (s + 1)) + 1 := by omega
      rw [hs]
      simpa [List.getD_cons_succ] using hpred

theorem findIdx?_pred {α : Type} (p : α → Bool) (d : α) (l : List α) (j : Nat)
    (h : List.findIdx? p l = some j) : p (l.getD j d) = true := by
  have h2 := findIdx?_le_and_pred p d l 0 j h
  simpa using h2.2

theorem listStartsWith_self (l : List Char) : listStartsWith l l = true := by
  induction l with
  | nil => rfl
  | cons a as ih => simp [listStartsWith, ih]

theorem containsSub_self (s : String) : containsSub s s = true := by
  rw [containsSub]
  cases hd : s.data with
  | nil => simp [listHasSub]
  | cons b bs => simp [listHasSub, listStartsWith_self]

theorem findCol_isSome_of_mem (cols : List String) (s : String) (h : s ∈ cols) :
    (findCol cols s).isSome = true := by
  rw [findCol]
  exact List.find?_isSome.mpr ⟨s, h, containsSub_self s⟩

/-- A rename dict whose keys are both `None` changes no column name. -/
theorem renameCols_none_keys (x y : String) (cols : List String) :
    renameCols [(none, x), (none, y)] cols = cols := by
  simp [renameCols]

theorem parseColumn_self_isDateOrNull (cols : List String) (name : String)
    (rows : List (List Cell)) (i : Nat)
    (h : cols.findIdx? (fun c => c == name) = some i) :
    ∀ r2 ∈ parseColumn cols name rows, isDateOrNull (r2.getD i Cell.null) = true := by
  intro r2 hr2
  simp only [parseColumn, h] at hr2
  obtain ⟨r, hr, rfl⟩ := List.mem_map.mp hr2
  rw [List.getD_eq_getElem?_getD, List.getElem?_set]
  simp only [if_pos rfl]
  by_cases hlen : i < r.length
  · simp [hlen, isDateOrNull_toDatetimeCoerce]
  · simp [hlen, isDateOrNull]

theorem parseColumn_preserve (cols : List String) (name : String)
    (rows : List (List Cell)) (i : Nat)
    (hne : ∀ j, cols.findIdx? (fun c => c == name) = some j → j ≠ i) :
    ∀ r2 ∈ parseColumn cols name rows, ∃ r ∈ rows, r2.getD i Cell.null = r.getD i Cell.null := by
  intro r2 hr2
  cases hf : cols.findIdx? (fun c => c == name) with
  | none =>
    simp only [parseColumn, hf] at hr2
    exact ⟨r2, hr2, rfl⟩
  | some j =>
    simp only [parseColumn, hf] at hr2
    obtain ⟨r, hr, rfl⟩ := List.mem_map.mp hr2
    refine ⟨r, hr, ?_⟩
    rw [List.getD_eq_getElem?_getD, List.getElem?_set, if_neg (hne j hf),
      ← List.getD_eq_getElem?_getD]

/-- After the date-coercion loop, every cell of a canonical date column is
a datetime or the missing marker. -/
theorem parseRows_date_cells (cols : List String) (rows : List (List Cell))
    (name : String) (hname : name = ("Data de Corte") ∨ name = ("Data de Lançamento"))
    (i : Nat) (h : cols.findIdx? (fun c => c == name) = some i) :
    ∀ r2 ∈ parseRows cols rows, isDateOrNull (r2.getD i Cell.null) = true := by
  intro r2 hr2
  rcases hname with hname | hname
  · subst hname
    simp only [parseRows] at hr2
    have hne : ∀ j, cols.findIdx? (fun c => c == ("Data de Lançamento")) = some j → j ≠ i := by
      intro j hj hji
      subst hji
      have h1 := findIdx?_pred (fun c => c == ("Data de Corte")) "" cols j h
      have h2 := findIdx?_pred (fun c => c == ("Data de Lançamento")) "" cols j hj
      rw [beq_iff_eq] at h1 h2
      rw [h1] at h2
      exact absurd h2 (by decide)
    obtain ⟨r, hr, heq⟩ := parseColumn_preserve cols ("Data de Lançamento") _ i hne r2 hr2
    rw [heq]
    exact parseColumn_self_isDateOrNull cols ("Data de Corte") rows i h r hr
  · subst hname
    simp only [parseRows] at hr2
    exact parseColumn_self_isDateOrNull cols ("Data de Lançamento") _ i h r2 hr2

/-- C2: if an uploaded table (with its `Convênio` and `Validação`
columns) has no complete recognized date-column pair — neither a
`Data corte`/`Data lançamento` pair nor a `Data de Corte`/`Data de
Lançamento` pair, a single member of a pair not counting — then
`tratar_planilha` returns the missing-columns failure sentinel and the
upload handler leaves the persisted store untouched, reporting failure. -/
theorem c2_missing_date_pairs_fail_without_save (t : Table) (ic iv : Nat)
    (hc : t.cols.findIdx? (fun c => c == ("Convênio")) = some ic)
    (hv : t.cols.findIdx? (fun c => c == ("Validação")) = some iv)
    (h1 : findCol t.cols ("Data corte") = none ∨ findCol t.cols ("Data lançamento") = none)
    (h2 : findCol t.cols ("Data de Corte") = none ∨ findCol t.cols ("Data de Lançamento") = none) :
    tratar_planilha t = Except.ok none ∧
      ∀ store : Option Table, processarESalvar store t = Except.ok (store, false) := by
  have hk := keptRows_filter t ic iv hc hv
  have hfail : tratar_planilha t = Except.ok none := by
    simp only [tratar_planilha, hk]
    rcases hA : findCol t.cols ("Data corte") with _ | a <;>
      rcases hB : findCol t.cols ("Data lançamento") with _ | b <;>
      rcases hC : findCol t.cols ("Data de Corte") with _ | c <;>
      rcases hD : findCol t.cols ("Data de Lançamento") with _ | d <;>
      simp_all
  refine ⟨hfail, fun store => ?_⟩
  simp only [processarESalvar, hfail, salvar_no_banco]

/-- Concrete run of C2: only one member of the canonical pair is present,
so normalization fails and an existing store survives unchanged. -/
theorem c2_witness :
    tratar_planilha
        { cols := ["Convênio", "Validação", "Data de Corte"],
          rows := [[Cell.str ("A"), Cell.str ("ok"), Cell.str ("2024-05-01")]] } = Except.ok none ∧
      processarESalvar (some { cols := ["Convênio"], rows := [[Cell.str ("B")]] })
        { cols := ["Convênio", "Validação", "Data de Corte"],
          rows := [[Cell.str ("A"), Cell.str ("ok"), Cell.str ("2024-05-01")]] }
        = Except.ok (some { cols := ["Convênio"], rows := [[Cell.str ("B")]] }, false) := by
  have h := c2_missing_date_pairs_fail_without_save
    { cols := ["Convênio", "Validação", "Data de Corte"],
      rows := [[Cell.str ("A"), Cell.str ("ok"), Cell.str ("2024-05-01")]] }
    0 1 (by rfl) (by rfl) (Or.inl (by rfl)) (Or.inr (by rfl))
  exact ⟨h.1, h.2 _⟩

/-- C9 as stated is false: a zero-row upload lacking only the `Validação`
column is cleaned without any exception, because the `iterrows` scan runs
over no rows and only the `dropna` on the `Convênio` subset touches a required
column by name. -/
theorem c9_counterexample :
    (("Validação") ∉ (["Convênio", "Data corte", "Data lançamento"] : List String)) ∧
      tratar_planilha { cols := ["Convênio", "Data corte", "Data lançamento"], rows := [] }
        = Except.ok (some
            { cols := ["Convênio", "Data de Corte", "Data de Lançamento"], rows := [] }) := by
  exact ⟨by decide, by rfl⟩

/-- C9 (amended): an uploaded table lacking the `Convênio` column, or
lacking the `Validação` column while having at least one data row, makes
`tratar_planilha` raise a missing-key error (in the row scan, or — for a
rowless table missing `Convênio` — at the `dropna` step) instead of
returning a cleaned table or the `False` sentinel; a zero-row table
lacking only `Validação` is processed without error, and the sentinel
remains reserved for the missing date-column case. -/
theorem c9_missing_required_columns_raise (t : Table)
    (h : t.cols.findIdx? (fun c => c == ("Convênio")) = none ∨
      (t.cols.findIdx? (fun c => c == ("Validação")) = none ∧ t.rows ≠ [])) :
    ∃ msg, tratar_planilha t = Except.error msg := by
  rcases h with hco | ⟨hva, hrows⟩
  · cases hr : t.rows with
    | nil =>
      refine ⟨"KeyError: " ++ "Convênio", ?_⟩
      simp only [tratar_planilha, keptRows, hr, scanSeparators, dropnaConvenio, hco]
    | cons r rs =>
      refine ⟨"KeyError: " ++ "Convênio", ?_⟩
      simp only [tratar_planilha, keptRows, hr, scanSeparators, getCell, hco]
  · cases hr : t.rows with
    | nil => exact absurd hr hrows
    | cons r rs =>
      cases hcv : t.cols.findIdx? (fun c => c == ("Convênio")) with
      | none =>
        refine ⟨"KeyError: " ++ "Convênio", ?_⟩
        simp only [tratar_planilha, keptRows, hr, scanSeparators, getCell, hcv]
      | some ic =>
        refine ⟨"KeyError: " ++ "Validação", ?_⟩
        simp only [tratar_planilha, keptRows, hr, scanSeparators, getCell, hcv, hva]

/-- Concrete run of the amended C9: a one-row table without `Validação`
raises a missing-key error. -/
theorem c9_witness :
    ∃ msg, tratar_planilha { cols := ["Convênio"], rows := [[Cell.str ("x")]] }
      = Except.error msg :=
  c9_missing_required_columns_raise
    { cols := ["Convênio"], rows := [[Cell.str ("x")]] }
    (Or.inr ⟨by rfl, by decide⟩)

/-- C10: an input table (with its `Convênio` and `Validação` columns) that
already has the exact canonical names `Data de Corte` and
`Data de Lançamento` and no `Data corte`/`Data lançamento` variant takes
the second rename branch, whose dict keys are the two unmatched (`None`)
first-family variables, so every column name is left unchanged;
normalization succeeds and both canonical columns come out parsed as
dates (datetime or missing in every cell). -/
theorem c10_canonical_names_preserved (t : Table) (ic iv : Nat)
    (hc : t.cols.findIdx? (fun c => c == ("Convênio")) = some ic)
    (hv : t.cols.findIdx? (fun c => c == ("Validação")) = some iv)
    (hA : findCol t.cols ("Data corte") = none)
    (hB : findCol t.cols ("Data lançamento") = none)
    (hC : ("Data de Corte") ∈ t.cols)
    (hD : ("Data de Lançamento") ∈ t.cols) :
    ∃ out : Table, tratar_planilha t = Except.ok (some out) ∧ out.cols = t.cols ∧
      (∀ name : String, (name = ("Data de Corte") ∨ name = ("Data de Lançamento")) →
        ∀ i, t.cols.findIdx? (fun c => c == name) = some i →
          ∀ r2 ∈ out.rows, isDateOrNull (r2.getD i Cell.null) = true) := by
  obtain ⟨kept, hkept⟩ : ∃ ks, keptRows t = Except.ok ks :=
    ⟨_, keptRows_filter t ic iv hc hv⟩
  have hCs := findCol_isSome_of_mem t.cols _ hC
  have hDs := findCol_isSome_of_mem t.cols _ hD
  have htr : tratar_planilha t
      = Except.ok (some (parseDates { cols := t.cols, rows := kept })) := by
    simp [tratar_planilha, hkept, hA, hB, hCs, hDs, renameCols_none_keys]
  refine ⟨parseDates { cols := t.cols, rows := kept }, htr, rfl, ?_⟩
  intro name hname i hi r2 hr2
  exact parseRows_date_cells t.cols kept name hname i hi r2 hr2

/-- Concrete run of C10: canonical date columns are kept by name and their
cells parsed. -/
theorem c10_witness :
    ∃ out : Table,
      tratar_planilha
          { cols := ["Convênio", "Validação", "Data de Corte", "Data de Lançamento"],
            rows := [[Cell.str ("A"), Cell.str ("ok"), Cell.str ("2024-05-02"), Cell.str ("bad")]] }
        = Except.ok (some out) ∧
      out.cols = ["Convênio", "Validação", "Data de Corte", "Data de Lançamento"] := by
  obtain ⟨out, h1, h2, h3⟩ := c10_canonical_names_preserved
    { cols := ["Convênio", "Validação", "Data de Corte", "Data de Lançamento"],
      rows := [[Cell.str ("A"), Cell.str ("ok"), Cell.str ("2024-05-02"), Cell.str ("bad")]] }
    0 1 (by rfl) (by rfl) (by rfl) (by rfl) (by decide) (by decide)
  exact ⟨out, h1, h2⟩

theorem toDatetimeCoerce_fix (c : Cell) (h : isDateOrNull c = true) :
    toDatetimeCoerce c = c := by
  cases c with
  | null => rfl
  | date d tm => rfl
  | str s => simp [isDateOrNull] at h
  | num n => simp [isDateOrNull] at h

theorem set_getD_self (r : List Cell) : ∀ i : Nat, r.set i (r.getD i Cell.null) = r := by
  induction r with
  | nil => intro i; rfl
  | cons a as ih =>
    intro i
    cases i with
    | zero => rfl
    | succ k =>
      show a :: as.set k ((a :: as).getD (k + 1) Cell.null) = a :: as
      rw [List.getD_cons_succ, ih k]

theorem colCanonical_spec (cols : List String) (rows : List (List Cell)) (name : String)
    (h : colCanonical cols rows name = true) :
    ∀ i, cols.findIdx? (fun c => c == name) = some i →
      ∀ r ∈ rows, isDateOrNull (r.getD i Cell.null) = true := by
  intro i hi r hr
  rw [colCanonical, hi] at h
  exact List.all_eq_true.mp h r hr

theorem parseColumn_canonical_id (cols : List String) (name : String)
    (rows : List (List Cell))
    (h : ∀ i, cols.findIdx? (fun c => c == name) = some i →
      ∀ r ∈ rows, isDateOrNull (r.getD i Cell.null) = true) :
    parseColumn cols name rows = rows := by
  cases hf : cols.findIdx? (fun c => c == name) with
  | none => simp [parseColumn, hf]
  | some i =>
    simp only [parseColumn, hf]
    have : ∀ r ∈ rows, r.set i (toDatetimeCoerce (r.getD i Cell.null)) = r := by
      intro r hr
      rw [toDatetimeCoerce_fix _ (h i hf r hr)]
      exact set_getD_self r i
    calc rows.map (fun r => r.set i (toDatetimeCoerce (r.getD i Cell.null)))
        = rows.map id := List.map_congr_left this
      _ = rows := List.map_id rows

theorem parseRowsLoad_canonical_id (cols : List String) (rows : List (List Cell))
    (h : CanonicalTable { cols := cols, rows := rows } = true) :
    parseRowsLoad cols rows = rows := by
  simp only [CanonicalTable, Bool.and_eq_true] at h
  obtain ⟨hl, hc⟩ := h
  rw [parseRowsLoad, parseColumn_canonical_id cols ("Data de Lançamento") rows
    (colCanonical_spec cols rows _ hl)]
  exact parseColumn_canonical_id cols ("Data de Corte") rows (colCanonical_spec cols rows _ hc)

theorem colCanonical_append (cols : List String) (rowsA rowsB : List (List Cell))
    (name : String) (h1 : colCanonical cols rowsA name = true)
    (h2 : colCanonical cols rowsB name = true) :
    colCanonical cols (rowsA ++ rowsB) name = true := by
  cases hf : cols.findIdx? (fun c => c == name) with
  | none => simp [colCanonical, hf]
  | some i =>
    simp only [colCanonical, hf] at h1 h2 ⊢
    rw [List.all_append, Bool.and_eq_true]
    exact ⟨h1, h2⟩

theorem canonicalTable_append (old df : Table)
    (hold : CanonicalTable old = true) (hdf : CanonicalTable df = true)
    (hcols : old.cols = df.cols) :
    CanonicalTable { cols := old.cols, rows := old.rows ++ df.rows } = true := by
  simp only [CanonicalTable, Bool.and_eq_true] at hold hdf ⊢
  obtain ⟨hl1, hc1⟩ := hold
  obtain ⟨hl2, hc2⟩ := hdf
  rw [← hcols] at hl2 hc2
  exact ⟨colCanonical_append old.cols old.rows df.rows _ hl1 hl2,
    colCanonical_append old.cols old.rows df.rows _ hc1 hc2⟩

/-- C3: on canonical tables, `save` with `replace` followed by `load`
gives back exactly the saved table (same rows, same columns), and `save`
with `append` followed by `load` gives the previously persisted rows in
their order followed by the newly saved rows, with no deduplication. -/
theorem c3_save_then_load_roundtrip (df old : Table) (s : Option Table)
    (hdf : CanonicalTable df = true) (hold : CanonicalTable old = true)
    (hcols : old.cols = df.cols) :
    load (save s df SaveMode.replace) = df ∧
      load (save (some old) df SaveMode.append)
        = { cols := old.cols, rows := old.rows ++ df.rows } := by
  constructor
  · show ({ cols := df.cols, rows := parseRowsLoad df.cols df.rows } : Table) = df
    rw [parseRowsLoad_canonical_id df.cols df.rows hdf]
  · show ({ cols := old.cols, rows := parseRowsLoad old.cols (old.rows ++ df.rows) } : Table)
      = { cols := old.cols, rows := old.rows ++ df.rows }
    rw [parseRowsLoad_canonical_id old.cols (old.rows ++ df.rows)
      (canonicalTable_append old df hold hdf hcols)]

/-- Concrete run of C3 on two canonical two-column tables. -/
theorem c3_witness :
    load (save none
        { cols := ["Convênio", "Data de Lançamento", "Data de Corte"],
          rows := [[Cell.str ("B"), Cell.date 200 5, Cell.date 201 0]] }
        SaveMode.replace)
      = { cols := ["Convênio", "Data de Lançamento", "Data de Corte"],
          rows := [[Cell.str ("B"), Cell.date 200 5, Cell.date 201 0]] } ∧
    load (save (some
        { cols := ["Convênio", "Data de Lançamento", "Data de Corte"],
          rows := [[Cell.str ("A"), Cell.date 100 0, Cell.null]] })
        { cols := ["Convênio", "Data de Lançamento", "Data de Corte"],
          rows := [[Cell.str ("B"), Cell.date 200 5, Cell.date 201 0]] }
        SaveMode.append)
      = { cols := ["Convênio", "Data de Lançamento", "Data de Corte"],
          rows := [[Cell.str ("A"), Cell.date 100 0, Cell.null],
                   [Cell.str ("B"), Cell.date 200 5, Cell.date 201 0]] } :=
  c3_save_then_load_roundtrip
    { cols := ["Convênio", "Data de Lançamento", "Data de Corte"],
      rows := [[Cell.str ("B"), Cell.date 200 5, Cell.date 201 0]] }
    { cols := ["Convênio", "Data de Lançamento", "Data de Corte"],
      rows := [[Cell.str ("A"), Cell.date 100 0, Cell.null]] }
    none (by rfl) (by rfl) (by rfl)

/-- C6: `carregar_dados_do_banco` returns the persisted canonical table
unchanged on success; a missing backing table (error 1146) yields an empty
table and no error message — a first-run state, not an error — while any
other load exception is surfaced as a UI error message rather than
silently swallowed. -/
theorem c6_load_empty_on_missing_table_surfaces_other_errors :
    (∀ t : Table, CanonicalTable t = true →
        carregar_dados_do_banco (ReadOutcome.ok t) = (t, none)) ∧
      carregar_dados_do_banco ReadOutcome.tableMissing
        = ({ cols := [], rows := [] }, none) ∧
      (∀ msg, (carregar_dados_do_banco (ReadOutcome.otherError msg)).2
        = some ("Erro ao carregar dados: " ++ msg)) := by
  refine ⟨fun t ht => ?_, rfl, fun msg => rfl⟩
  show (({ cols := t.cols, rows := parseRowsLoad t.cols t.rows } : Table),
      (none : Option String)) = (t, none)
  rw [parseRowsLoad_canonical_id t.cols t.rows ht]

/-- Concrete run of the C6 success case on a canonical table. -/
theorem c6_witness :
    carregar_dados_do_banco (ReadOutcome.ok
        { cols := ["Convênio", "Data de Lançamento", "Data de Corte"],
          rows := [[Cell.str ("A"), Cell.date 5 0, Cell.null]] })
      = ({ cols := ["Convênio", "Data de Lançamento", "Data de Corte"],
           rows := [[Cell.str ("A"), Cell.date 5 0, Cell.null]] }, none) :=
  c6_load_empty_on_missing_table_surfaces_other_errors.1
    { cols := ["Convênio", "Data de Lançamento", "Data de Corte"],
      rows := [[Cell.str ("A"), Cell.date 5 0, Cell.null]] }
    (by rfl)

theorem getD_set_coerce (r : List Cell) (i : Nat) :
    (r.set i (toDatetimeCoerce (r.getD i Cell.null))).getD i Cell.null
      = toDatetimeCoerce (r.getD i Cell.null) := by
  rw [List.getD_eq_getElem?_getD, List.getElem?_set, if_pos rfl]
  by_cases hlen : i < r.length
  · simp [hlen]
  · simp only [hlen, if_false]
    rw [List.getD_eq_getElem?_getD, List.getElem?_eq_none (Nat.le_of_not_lt hlen)]
    rfl

theorem toDatetimeCoerce_null_of_not_parses (c : Cell) (h : cellParses c = false) :
    toDatetimeCoerce c = Cell.null := by
  cases c with
  | null => rfl
  | date d tm => simp [cellParses] at h
  | num n => simp [cellParses] at h
  | str s =>
    simp only [cellParses] at h
    simp only [toDatetimeCoerce]
    cases hp : parseDateStr s with
    | none => rfl
    | some d =>
      rw [hp] at h
      simp at h

theorem findIdx?_ne_of_names_ne (cols : List String) (n1 n2 : String) (hne : n1 ≠ n2)
    (i j : Nat) (h1 : cols.findIdx? (fun c => c == n1) = some i)
    (h2 : cols.findIdx? (fun c => c == n2) = some j) : j ≠ i := by
  intro hji
  subst hji
  have e1 := findIdx?_pred (fun c => c == n1) "" cols j h1
  have e2 := findIdx?_pred (fun c => c == n2) "" cols j h2
  rw [beq_iff_eq] at e1 e2
  exact hne (e1.symm.trans e2)

theorem parseColumn_length (cols : List String) (name : String)
    (rows : List (List Cell)) : (parseColumn cols name rows).length = rows.length := by
  cases hf : cols.findIdx? (fun c => c == name) with
  | none => simp [parseColumn, hf]
  | some i => simp [parseColumn, hf]

theorem parseRows_length (cols : List String) (rows : List (List Cell)) :
    (parseRows cols rows).length = rows.length := by
  simp only [parseRows, parseColumn_length]

theorem parseColumn_getElem? (cols : List String) (name : String)
    (rows : List (List Cell)) (k : Nat) (r : List Cell) (hk : rows[k]? = some r) :
    ∃ r2, (parseColumn cols name rows)[k]? = some r2 ∧
      (∀ j, cols.findIdx? (fun c => c == name) = some j →
        r2.getD j Cell.null = toDatetimeCoerce (r.getD j Cell.null)) ∧
      (∀ i, (cols.findIdx? (fun c => c == name) = none ∨
          (∀ j, cols.findIdx? (fun c => c == name) = some j → j ≠ i)) →
        r2.getD i Cell.null = r.getD i Cell.null) := by
  cases hf : cols.findIdx? (fun c => c == name) with
  | none =>
    refine ⟨r, ?_, ?_, ?_⟩
    · simp [parseColumn, hf, hk]
    · intro j hj
      exact absurd hj (by simp)
    · intro i _
      rfl
  | some j0 =>
    refine ⟨r.set j0 (toDatetimeCoerce (r.getD j0 Cell.null)), ?_, ?_, ?_⟩
    · simp [parseColumn, hf, List.getElem?_map, hk]
    · intro j hj
      injection hj with hj
      subst hj
      exact getD_set_coerce r j0
    · intro i hi
      rcases hi with hi | hi
      · exact absurd hi (by simp)
      · rw [List.getD_eq_getElem?_getD, List.getElem?_set, if_neg (hi j0 rfl),
          ← List.getD_eq_getElem?_getD]

theorem parseRows_getElem? (cols : List String) (rows : List (List Cell))
    (name : String) (hname : name = ("Data de Corte") ∨ name = ("Data de Lançamento"))
    (i : Nat) (hi : cols.findIdx? (fun c => c == name) = some i)
    (k : Nat) (r : List Cell) (hk : rows[k]? = some r) :
    ∃ r2, (parseRows cols rows)[k]? = some r2 ∧
      r2.getD i Cell.null = toDatetimeCoerce (r.getD i Cell.null) := by
  rcases hname with hname | hname
  · subst hname
    obtain ⟨ra, hka, hT, _⟩ := parseColumn_getElem? cols ("Data de Corte") rows k r hk
    obtain ⟨rb, hkb, _, hU⟩ := parseColumn_getElem? cols ("Data de Lançamento") _ k ra hka
    refine ⟨rb, hkb, ?_⟩
    have hU2 : rb.getD i Cell.null = ra.getD i Cell.null := by
      apply hU
      cases hf : cols.findIdx? (fun c => c == ("Data de Lançamento")) with
      | none => exact Or.inl rfl
      | some j =>
        refine Or.inr (fun j2 hj2 => ?_)
        injection hj2 with hj2
        subst hj2
        exact findIdx?_ne_of_names_ne cols ("Data de Corte") ("Data de Lançamento")
          (by decide) i j hi hf
    rw [hU2]
    exact hT i hi
  · subst hname
    obtain ⟨ra, hka, _, hU⟩ := parseColumn_getElem? cols ("Data de Corte") rows k r hk
    obtain ⟨rb, hkb, hT, _⟩ := parseColumn_getElem? cols ("Data de Lançamento") _ k ra hka
    refine ⟨rb, hkb, ?_⟩
    have hU2 : ra.getD i Cell.null = r.getD i Cell.null := by
      apply hU
      cases hf : cols.findIdx? (fun c => c == ("Data de Corte")) with
      | none => exact Or.inl rfl
      | some j =>
        refine Or.inr (fun j2 hj2 => ?_)
        injection hj2 with hj2
        subst hj2
        exact findIdx?_ne_of_names_ne cols ("Data de Lançamento") ("Data de Corte")
          (by decide) i j hi hf
    rw [hT i hi, hU2]

/-- C7: during normalization every cell of the two canonical date columns
goes through the coercing `pd.to_datetime`: whenever
`tratar_planilha` returns a cleaned table, its rows are exactly the kept
rows with the two canonical date columns coerced cell by cell — same
number of rows (a malformed cell never drops its row), each coerced cell
obtained from the kept cell by `toDatetimeCoerce`, and a cell that fails
date parsing becomes the missing marker, with no exception raised by this
stage. -/
theorem c7_malformed_date_cells_coerced_not_fatal (t : Table)
    (kept : List (List Cell)) (out : Table)
    (hkept : keptRows t = Except.ok kept)
    (hout : tratar_planilha t = Except.ok (some out)) :
    out.rows = parseRows out.cols kept ∧
      out.rows.length = kept.length ∧
      (∀ name : String, (name = ("Data de Corte") ∨ name = ("Data de Lançamento")) →
        ∀ i, out.cols.findIdx? (fun c => c == name) = some i →
          ∀ k : Nat, ∀ r : List Cell, kept[k]? = some r →
            ∃ r2 : List Cell, out.rows[k]? = some r2 ∧
              r2.getD i Cell.null = toDatetimeCoerce (r.getD i Cell.null) ∧
              (cellParses (r.getD i Cell.null) = false →
                r2.getD i Cell.null = Cell.null)) := by
  have hrows : out.rows = parseRows out.cols kept := by
    simp only [tratar_planilha, hkept] at hout
    rcases hA : findCol t.cols ("Data corte") with _ | a <;>
      rcases hB : findCol t.cols ("Data lançamento") with _ | b <;>
      simp only [hA, hB] at hout
    · split at hout
      · simp only [Except.ok.injEq, Option.some.injEq] at hout
        subst hout
        rfl
      · simp at hout
    · split at hout
      · simp only [Except.ok.injEq, Option.some.injEq] at hout
        subst hout
        rfl
      · simp at hout
    · split at hout
      · simp only [Except.ok.injEq, Option.some.injEq] at hout
        subst hout
        rfl
      · simp at hout
    · simp only [Except.ok.injEq, Option.some.injEq] at hout
      subst hout
      rfl
  refine ⟨hrows, ?_, ?_⟩
  · rw [hrows, parseRows_length]
  · intro name hname i hi k r hk
    obtain ⟨r2, h1, h2⟩ := parseRows_getElem? out.cols kept name hname i hi k r hk
    refine ⟨r2, ?_, h2, fun hcp => ?_⟩
    · rw [hrows]
      exact h1
    · exact h2.trans (toDatetimeCoerce_null_of_not_parses _ hcp)

/-- Concrete run of C7: the malformed `Data de Corte` cell is coerced to
missing and its row survives. -/
theorem c7_witness :
    ∃ r2 : List Cell,
      ({ cols := ["Convênio", "Validação", "Data de Corte", "Data de Lançamento"],
         rows := [[Cell.str ("A"), Cell.str ("ok"), Cell.null,
                   Cell.date 753052 0]] } : Table).rows[0]? = some r2 ∧
        r2.getD 2 Cell.null = toDatetimeCoerce (Cell.str ("notadate")) ∧
        (cellParses (Cell.str ("notadate")) = false → r2.getD 2 Cell.null = Cell.null) := by
  have h := c7_malformed_date_cells_coerced_not_fatal
    { cols := ["Convênio", "Validação", "Data de Corte", "Data de Lançamento"],
      rows := [[Cell.str ("A"), Cell.str ("ok"), Cell.str ("notadate"), Cell.str ("2024-05-01")]] }
    [[Cell.str ("A"), Cell.str ("ok"), Cell.str ("notadate"), Cell.str ("2024-05-01")]]
    { cols := ["Convênio", "Validação", "Data de Corte", "Data de Lançamento"],
      rows := [[Cell.str ("A"), Cell.str ("ok"), Cell.null, Cell.date 753052 0]] }
    (by rfl) (by rfl)
  exact h.2.2 ("Data de Corte") (Or.inl rfl) 2 (by rfl) 0
    [Cell.str ("A"), Cell.str ("ok"), Cell.str ("notadate"), Cell.str ("2024-05-01")] (by rfl)

/-- C4: for any table carrying the launch-date column and any value of
the current date, `filtro_hoje` keeps exactly the rows whose
`Data de Lançamento` cell is a datetime on the current calendar day, in their
original order; the time-of-day component is ignored, a missing launch
date never matches, and the kept/dropped decision reads only the
launch-date cell — in particular `Data de Corte` is never consulted. -/
theorem c4_due_today_is_exact_launch_day (t : Table) (hoje : Int) (i : Nat)
    (h : t.cols.findIdx? (fun c => c == ("Data de Lançamento")) = some i) :
    filtro_hoje hoje t = Except.ok
        { cols := t.cols,
          rows := t.rows.filter (fun r => dtDateEq (r.getD i Cell.null) hoje) } ∧
      (∀ d tm, dtDateEq (Cell.date d tm) hoje = (d == hoje)) ∧
      dtDateEq Cell.null hoje = false ∧
      (∀ r r2 : List Cell, r.getD i Cell.null = r2.getD i Cell.null →
        dtDateEq (r.getD i Cell.null) hoje = dtDateEq (r2.getD i Cell.null) hoje) := by
  refine ⟨?_, fun d tm => rfl, rfl, fun r r2 he => by rw [he]⟩
  simp only [filtro_hoje, h]

/-- Concrete run of C4, the example of the spec: launch dates
`{2024-05-01, today, today}` plus one missing launch date; exactly the two
`today` rows remain (one with a nonzero time of day), the null row is
dropped. -/
theorem c4_witness :
    filtro_hoje 753061
        { cols := ["Convênio", "Data de Lançamento"],
          rows := [[Cell.str ("A"), Cell.date 753052 0],
                   [Cell.str ("B"), Cell.date 753061 3600],
                   [Cell.str ("C"), Cell.date 753061 0],
                   [Cell.str ("D"), Cell.null]] }
      = Except.ok
          { cols := ["Convênio", "Data de Lançamento"],
            rows := [[Cell.str ("B"), Cell.date 753061 3600],
                     [Cell.str ("C"), Cell.date 753061 0]] } := by
  have h := (c4_due_today_is_exact_launch_day
    { cols := ["Convênio", "Data de Lançamento"],
      rows := [[Cell.str ("A"), Cell.date 753052 0],
               [Cell.str ("B"), Cell.date 753061 3600],
               [Cell.str ("C"), Cell.date 753061 0],
               [Cell.str ("D"), Cell.null]] }
    753061 1 (by rfl)).1
  exact h.trans (by rfl)

theorem filterStepIsin_filter (cols : List String) (name : String) (vals : List Cell)
    (i : Nat) (h : cols.findIdx? (fun c => c == name) = some i)
    (rows : List (List Cell)) :
    filterStepIsin cols name vals rows
      = Except.ok (rows.filter (fun r =>
          vals.isEmpty || vals.contains (r.getD i Cell.null))) := by
  by_cases he : vals.isEmpty
  · simp [filterStepIsin, he, List.filter_true]
  · simp [filterStepIsin, he, h]

theorem filterStepDate_filter (cols : List String) (name : String) (dOpt : Option Int)
    (i : Nat) (h : cols.findIdx? (fun c => c == name) = some i)
    (rows : List (List Cell)) :
    filterStepDate cols name dOpt rows
      = Except.ok (rows.filter (fun r =>
          match dOpt with
          | none => true
          | some d => dtDateEq (r.getD i Cell.null) d)) := by
  cases dOpt with
  | none => simp [filterStepDate, List.filter_true]
  | some d => simp [filterStepDate, h]

/-- C5: on a table carrying all four filterable columns, the sequentially
applied sidebar filters keep exactly the rows satisfying every set
filter — the four predicates compose by logical AND, an unset/empty
filter imposing no constraint — in the original row order; and with all
four filters unset the table comes back unchanged (for any table, the
unset branches never even touch the columns). -/
theorem c5_filters_compose_by_and_preserving_order (t : Table) (f : Filters)
    (iC iS iL iK : Nat)
    (hC : t.cols.findIdx? (fun c => c == ("Convênio")) = some iC)
    (hS : t.cols.findIdx? (fun c => c == ("Sistema")) = some iS)
    (hL : t.cols.findIdx? (fun c => c == ("Data de Lançamento")) = some iL)
    (hK : t.cols.findIdx? (fun c => c == ("Data de Corte")) = some iK) :
    applyFilters f t = Except.ok
        { cols := t.cols,
          rows := t.rows.filter (fun r =>
            (f.convenios.isEmpty || f.convenios.contains (r.getD iC Cell.null))
              && (f.sistemas.isEmpty || f.sistemas.contains (r.getD iS Cell.null))
              && (match f.dataLanc with
                  | none => true
                  | some d => dtDateEq (r.getD iL Cell.null) d)
              && (match f.dataCorte with
                  | none => true
                  | some d => dtDateEq (r.getD iK Cell.null) d)) } ∧
      applyFilters { convenios := [], sistemas := [], dataLanc := none, dataCorte := none } t
        = Except.ok t := by
  constructor
  · simp only [applyFilters,
      filterStepIsin_filter t.cols ("Convênio") f.convenios iC hC,
      filterStepIsin_filter t.cols ("Sistema") f.sistemas iS hS,
      filterStepDate_filter t.cols ("Data de Lançamento") f.dataLanc iL hL,
      filterStepDate_filter t.cols ("Data de Corte") f.dataCorte iK hK,
      List.filter_filter]
    refine congrArg Except.ok (congrArg (Table.mk t.cols) ?_)
    refine List.filter_congr (fun r _ => ?_)
    cases h1 : (f.convenios.isEmpty || f.convenios.contains (r.getD iC Cell.null)) <;>
      cases h2 : (f.sistemas.isEmpty || f.sistemas.contains (r.getD iS Cell.null)) <;>
      cases h3 : (match f.dataLanc with
        | none => true
        | some d => dtDateEq (r.getD iL Cell.null) d) <;>
      cases h4 : (match f.dataCorte with
        | none => true
        | some d => dtDateEq (r.getD iK Cell.null) d) <;>
      simp [h1, h2, h3, h4]
  · simp [applyFilters, filterStepIsin, filterStepDate]

/-- Concrete run of C5: selecting agreements `{A, B}` with every other
filter unset keeps exactly the `A` and `B` rows in order, and the unset
combination returns the table unchanged. -/
theorem c5_witness :
    applyFilters
        { convenios := [Cell.str ("A"), Cell.str ("B")], sistemas := [],
          dataLanc := none, dataCorte := none }
        { cols := ["Convênio", "Sistema", "Data de Lançamento", "Data de Corte"],
          rows := [[Cell.str ("A"), Cell.str ("S1"), Cell.date 1 0, Cell.date 2 0],
                   [Cell.str ("C"), Cell.str ("S2"), Cell.date 3 0, Cell.date 4 0],
                   [Cell.str ("B"), Cell.str ("S1"), Cell.null, Cell.null]] }
      = Except.ok
          { cols := ["Convênio", "Sistema", "Data de Lançamento", "Data de Corte"],
            rows := [[Cell.str ("A"), Cell.str ("S1"), Cell.date 1 0, Cell.date 2 0],
                     [Cell.str ("B"), Cell.str ("S1"), Cell.null, Cell.null]] } ∧
      applyFilters { convenios := [], sistemas := [], dataLanc := none, dataCorte := none }
        { cols := ["Convênio", "Sistema", "Data de Lançamento", "Data de Corte"],
          rows := [[Cell.str ("A"), Cell.str ("S1"), Cell.date 1 0, Cell.date 2 0],
                   [Cell.str ("C"), Cell.str ("S2"), Cell.date 3 0, Cell.date 4 0],
                   [Cell.str ("B"), Cell.str ("S1"), Cell.null, Cell.null]] }
        = Except.ok
            { cols := ["Convênio", "Sistema", "Data de Lançamento", "Data de Corte"],
              rows := [[Cell.str ("A"), Cell.str ("S1"), Cell.date 1 0, Cell.date 2 0],
                       [Cell.str ("C"), Cell.str ("S2"), Cell.date 3 0, Cell.date 4 0],
                       [Cell.str ("B"), Cell.str ("S1"), Cell.null, Cell.null]] } := by
  have h := c5_filters_compose_by_and_preserving_order
    { cols := ["Convênio", "Sistema", "Data de Lançamento", "Data de Corte"],
      rows := [[Cell.str ("A"), Cell.str ("S1"), Cell.date 1 0, Cell.date 2 0],
               [Cell.str ("C"), Cell.str ("S2"), Cell.date 3 0, Cell.date 4 0],
               [Cell.str ("B"), Cell.str ("S1"), Cell.null, Cell.null]] }
    { convenios := [Cell.str ("A"), Cell.str ("B")], sistemas := [],
      dataLanc := none, dataCorte := none }
    0 1 2 3 (by rfl) (by rfl) (by rfl) (by rfl)
  exact ⟨h.1.trans (by rfl), h.2⟩

theorem decStr_enc (s : String) (rest : List Nat) :
    decStr (encStr s ++ rest) = some (s, rest) := by
  have h1 : s.data.length ≤ (s.data.map Char.toNat ++ rest).length := by
    rw [List.length_append, List.length_map]
    exact Nat.le_add_right _ _
  have h2 : (s.data.map Char.toNat ++ rest).take s.data.length = s.data.map Char.toNat := by
    rw [show s.data.length = (s.data.map Char.toNat).length from (List.length_map _ _).symm]
    exact List.take_left _ _
  have h3 : (s.data.map Char.toNat ++ rest).drop s.data.length = rest := by
    rw [show s.data.length = (s.data.map Char.toNat).length from (List.length_map _ _).symm]
    exact List.drop_left _ _
  show decStr (s.data.length :: (s.data.map Char.toNat ++ rest)) = some (s, rest)
  simp only [decStr, h1, if_true, h2, h3, List.map_map]
  refine congrArg (fun l => some (String.mk l, rest)) ?_
  exact (List.map_congr_left (fun c _ => Char.ofNat_toNat c)).trans (List.map_id _)

theorem decInt_enc (i : Int) (rest : List Nat) :
    decInt (encInt i ++ rest) = some (i, rest) := by
  cases i <;> rfl

theorem decCell_enc (c : Cell) (rest : List Nat) :
    decCell (encCell c ++ rest) = some (c, rest) := by
  cases c with
  | null => rfl
  | str s =>
    show (decStr (encStr s ++ rest)).map (fun p => (Cell.str p.1, p.2))
      = some (Cell.str s, rest)
    rw [decStr_enc]
    rfl
  | date d tm => cases d <;> rfl
  | num n => cases n <;> rfl

theorem decSeqWith_enc {α : Type} (f : α → List Nat)
    (g : List Nat → Option (α × List Nat))
    (hfg : ∀ (a : α) (rest : List Nat), g (f a ++ rest) = some (a, rest)) :
    ∀ (l : List α) (rest : List Nat),
      decSeqWith g l.length (encSeq f l ++ rest) = some (l, rest) := by
  intro l
  induction l with
  | nil => intro rest; rfl
  | cons a as ih =>
    intro rest
    show decSeqWith g (as.length + 1) ((f a ++ encSeq f as) ++ rest) = some (a :: as, rest)
    rw [List.append_assoc]
    simp only [decSeqWith, hfg a (encSeq f as ++ rest), ih rest]

theorem decListWith_enc {α : Type} (f : α → List Nat)
    (g : List Nat → Option (α × List Nat))
    (hfg : ∀ (a : α) (rest : List Nat), g (f a ++ rest) = some (a, rest))
    (l : List α) (rest : List Nat) :
    decListWith g (encListWith f l ++ rest) = some (l, rest) := by
  show decSeqWith g l.length (encSeq f l ++ rest) = some (l, rest)
  exact decSeqWith_enc f g hfg l rest

theorem decRow_enc (r : List Cell) (rest : List Nat) :
    decRow (encRow r ++ rest) = some (r, rest) :=
  decListWith_enc encCell decCell decCell_enc r rest

theorem decSheet_enc (sh : ExcelSheet) (rest : List Nat) :
    decSheet (encSheet sh ++ rest) = some (sh, rest) := by
  simp only [encSheet, decSheet, List.append_assoc, decStr_enc,
    decListWith_enc encStr decStr decStr_enc,
    decListWith_enc encRow decRow decRow_enc]

theorem decodeExcel_enc (doc : ExcelDoc) (rest : List Nat) :
    decodeExcel (excelBytes doc ++ rest) = some (doc, rest) := by
  simp only [excelBytes, decodeExcel, decListWith_enc encSheet decSheet decSheet_enc]

/-- C8: `to_excel` deterministically serializes any table — the output
depends only on the column list and the rows — as a single-sheet workbook
whose sheet is named `Tratada`, with the column names as header row and
exactly the data rows, no row-index column; the stream decodes back to
that document with nothing left over, and the empty table still yields
the valid stream holding just the header row. -/
theorem c8_to_excel_single_named_sheet_deterministic (df : Table) :
    to_excel df = excelBytes
        { sheets := [{ name := "Tratada", header := df.cols, dataRows := df.rows }] } ∧
      decodeExcel (to_excel df)
        = some ({ sheets :=
            [{ name := "Tratada", header := df.cols, dataRows := df.rows }] }, []) ∧
      to_excel { cols := df.cols, rows := [] } = excelBytes
        { sheets := [{ name := "Tratada", header := df.cols, dataRows := [] }] } := by
  refine ⟨rfl, ?_, rfl⟩
  have h := decodeExcel_enc
    { sheets := [{ name := "Tratada", header := df.cols, dataRows := df.rows }] } []
  simpa using h

